import Mathlib

/-!
Verification of the runtime-discovery and launch-orchestration engine of the
`Why` launcher (Rust).  Each Rust function relevant to the checked claims is
shallowly embedded as an executable Lean definition; filesystem and JNI
effects are made explicit as data passed to the embedding.  Machine strings
are modelled as `List Char` wherever the Rust code parses them, so that every
definition evaluates by `decide`.
-/

namespace Why

/-- Characters of a string, used to mirror Rust `&str` values in parsing code. -/
def chars (s : String) : List Char := s.data

/-- Mirror of Rust `str::split(sep)` over characters: always yields at least
one (possibly empty) piece; a trailing separator yields a trailing empty
piece. -/
def splitOnChar (sep : Char) : List Char → List (List Char)
  | [] => [[]]
  | c :: rest =>
    let r := splitOnChar sep rest
    if c = sep then [] :: r
    else
      match r with
      | [] => [[c]]
      | h :: t => (c :: h) :: t

/-- Boolean prefix test over characters (Rust `str::starts_with`). -/
def isPre : List Char → List Char → Bool
  | [], _ => true
  | _ :: _, [] => false
  | a :: as, b :: bs => a = b && isPre as bs

/-- Drop every leading occurrence of `c`. -/
def dropLeadingChar (c : Char) : List Char → List Char
  | [] => []
  | x :: xs => if x = c then dropLeadingChar c xs else x :: xs

/-- Mirror of Rust `str::trim_matches(c)`: strip all leading and trailing
occurrences of `c`. -/
def trimMatchesChar (c : Char) (s : List Char) : List Char :=
  ((dropLeadingChar c ((dropLeadingChar c s).reverse)).reverse)

/-- Numeric value of a decimal digit character. -/
def digitVal (c : Char) : Nat := c.toNat - '0'.toNat

/-- Accumulate decimal digits; fails on any non-digit. -/
def parseDigitsAux : List Char → Nat → Option Nat
  | [], acc => some acc
  | c :: cs, acc => if c.isDigit then parseDigitsAux cs (acc * 10 + digitVal c) else none

/-- Parse a non-empty all-digit string to a `Nat`. -/
def parseDigits : List Char → Option Nat
  | [] => none
  | cs => parseDigitsAux cs 0

/-- Mirror of Rust `str::parse::<i32>()`: optional single sign, then at least
one digit, with the i32 range check. -/
def parseI32 (s : List Char) : Option Int :=
  match s with
  | '+' :: rest =>
    (parseDigits rest).bind (fun n => if n ≤ 2147483647 then some (Int.ofNat n) else none)
  | '-' :: rest =>
    (parseDigits rest).bind (fun n => if n ≤ 2147483648 then some (-(Int.ofNat n)) else none)
  | rest =>
    (parseDigits rest).bind (fun n => if n ≤ 2147483647 then some (Int.ofNat n) else none)

/-! ## Entry-point class-header introspector (`file_handler.rs`,
`read_class_version_to_java`).  The reader is modelled by the byte sequence
it yields; `read_exact` on an 8-byte buffer fails (hence `None`) when fewer
than 8 bytes are available.  `u8::to_be` is the identity, so the buffer is
used as read. -/

/-- Big-endian `u32` from the first four bytes (`u32::from_be_bytes`). -/
def classMagic (bytes : List Nat) : Nat :=
  (bytes.getD 0 0) * 16777216 + (bytes.getD 1 0) * 65536 +
    (bytes.getD 2 0) * 256 + bytes.getD 3 0

/-- Big-endian `u16` from bytes 6 and 7 (`u16::from_be_bytes`). -/
def classMajor (bytes : List Nat) : Nat :=
  (bytes.getD 6 0) * 256 + bytes.getD 7 0

/-- Embeds `read_class_version_to_java`: magic check, then the
major-version-minus-44 mapping for majors at least 45. -/
def read_class_version_to_java (bytes : List Nat) : Option Nat :=
  if bytes.length < 8 then none
  else if classMagic bytes = 0xCAFEBABE then
    if 45 ≤ classMajor bytes then some (classMajor bytes - 44) else none
  else none

/-! ## Version Oracle, `file_handler.rs` flavour
(`compatible_java_version`).  The release file is modelled by its list of
lines; locating the file by walking parent directories is filesystem
plumbing outside the parsing contract, so a missing file is the `[]`/no-line
case handled by the caller passing the lines that were actually read. -/

/-- Verdict of one release-file line inside the scanning loop of
`compatible_java_version` (`file_handler.rs`): `some b` when the line starts
with `JAVA_VERSION=`, its value (after `trim_matches('"')`) has a leading
`.`-separated component parsing as an `i32` `found`, with
`b = (found >= req)`; `none` otherwise, in which case the loop continues. -/
def fhLineVerdict (line : List Char) (reqVer : Int) : Option Bool :=
  if isPre (chars "JAVA_VERSION=") line then
    match (splitOnChar '=' line).get? 1 with
    | none => none
    | some verStr =>
      let v2 := trimMatchesChar '"' verStr
      match (splitOnChar '.' v2).head? with
      | none => none
      | some ver =>
        match parseI32 ver with
        | none => none
        | some found => some (decide (found ≥ reqVer))
  else none

/-- Embeds `compatible_java_version` from `file_handler.rs` over the lines of
the release file: first line yielding a verdict wins; `none` when no line
does (missing file is the `[]` case). -/
def compatible_java_version_fh (lines : List (List Char)) (reqVer : Int) : Option Bool :=
  match lines with
  | [] => none
  | line :: rest =>
    match fhLineVerdict line reqVer with
    | some b => some b
    | none => compatible_java_version_fh rest reqVer

/-! ## Version Oracle, `java_launcher.rs` flavour.  This variant reads the
release file through the `config` crate's INI parser and then runs
`parts.first()?.parse::<i32>().unwrap()` — the `unwrap` aborts the process on
an unparsable leading component.  The INI lookup is abstracted to the
extracted `JAVA_VERSION` value (`none` when the release file or the key is
missing). -/

/-- Outcome of the `java_launcher.rs` oracle: a compatibility verdict, the
`None` return, or a process abort at the `unwrap`. -/
inductive JlVerdict where
  | compat (b : Bool)
  | unknown
  | panics
deriving DecidableEq, Repr

/-- Embeds `compatible_java_version` from `java_launcher.rs`, with the INI
read abstracted to the `JAVA_VERSION` value it produced. -/
def compatible_java_version_jl (javaVersion : Option (List Char)) (reqVer : Int) : JlVerdict :=
  match javaVersion with
  | none => .unknown
  | some verStr =>
    match (splitOnChar '.' verStr).head? with
    | none => .unknown
    | some ver =>
      match parseI32 ver with
      | none => .panics
      | some v => .compat (decide (v ≥ reqVer))

/-! ## Entry-point introspector over the classpath (`file_handler.rs`,
`get_java_version_of_main`).  Each classpath entry is modelled by what the
filesystem holds for it; every `Option` layer matches one fallible step of
the Rust code, in order. -/

/-- Filesystem content behind one classpath entry string.
`missing`: the path does not exist (`!jar_path.exists()`).
`dir found`: a directory; `found` is the `find_file_with_path` result, and its
inner layer the `File::open` result giving the class-file bytes.
`jarFile opened`: a file; the three layers are `File::open`,
`ZipArchive::new`, and `by_name`, the innermost giving the entry bytes. -/
inductive CpEntry where
  | missing
  | dir (found : Option (Option (List Nat)))
  | jarFile (opened : Option (Option (Option (List Nat))))
deriving DecidableEq, Repr

/-- Bytes that reach `read_class_version_to_java` for one entry, if the
fallible chain for that entry succeeds; `none` makes the scan continue. -/
def scanEntry : CpEntry → Option (List Nat)
  | .missing => none
  | .dir found =>
    match found with
    | some (some b) => some b
    | _ => none
  | .jarFile opened =>
    match opened with
    | some (some (some b)) => some b
    | _ => none

/-- The classpath loop of `get_java_version_of_main`: returns at the first
entry whose bytes yield a version; otherwise (no artifact, open failure, or
failed version extraction) moves on to the next entry. -/
def scanClasspath : List CpEntry → Option Nat
  | [] => none
  | e :: rest =>
    match scanEntry e with
    | some bytes =>
      match read_class_version_to_java bytes with
      | some v => some v
      | none => scanClasspath rest
    | none => scanClasspath rest

/-- Embeds `get_java_version_of_main`: `none` without a main class, else the
classpath scan (the main-class-to-path conversion only fixes which file is
looked up, which the `CpEntry` data already encodes). -/
def get_java_version_of_main (mainClass : Option (List Char))
    (classpath : List CpEntry) : Option Nat :=
  match mainClass with
  | none => none
  | some _ => scanClasspath classpath

/-! ## Configuration processing (`launch_config.rs`, `process_config`).
The raw jpackage config is an association list of sections, each mapping a
key to the list of its values.  Result type `Option LaunchConfig`: `none`
models a panic (`unwrap` on a missing value).  External reads (`read_manifest`
and the filesystem behind classpath entries) are supplied by `ProcessEnv`.
The platform path separator is modelled as `:` (the non-Windows value). -/

/-- One raw config section: key to list of values, first binding wins on
lookup (mirrors a map with unique keys). -/
def sectionGet (sec : List (String × List String)) (k : String) : Option (List String) :=
  (sec.find? (fun p => p.1 = k)).map (fun p => p.2)

/-- Raw jpackage config: section name to section. -/
def configGet (cfg : List (String × List (String × List String))) (k : String) :
    Option (List (String × List String)) :=
  (cfg.find? (fun p => p.1 = k)).map (fun p => p.2)

/-- Lookup in a parsed manifest main section. -/
def manifestGet (sec : List (String × String)) (k : String) : Option String :=
  (sec.find? (fun p => p.1 = k)).map (fun p => p.2)

/-- Rust `str::split(" ")` producing strings. -/
def splitSpace (s : String) : List String :=
  (splitOnChar ' ' s.data).map (fun l => String.mk l)

/-- Join with the platform separator (`classpath.join(SEPARATOR)`). -/
def joinSep : List String → String
  | [] => ""
  | [x] => x
  | x :: xs => x ++ ":" ++ joinSep xs

/-- The result struct built by `process_config` (`LaunchConfig` in
`launch_config.rs`). -/
structure LaunchConfig where
  main_class : String
  runtime : Option String
  min_java : Option Nat
  java_opts : List String
  classpath : List String
  program_opts : List String
deriving DecidableEq, Repr

/-- External collaborators consumed by `process_config`: the manifest reader
(result is the manifest's main section; `none` models the `Err` branch that
only logs), the canonical executable path, the platform default runtime
path, and the filesystem content behind each classpath entry string. -/
structure ProcessEnv where
  readManifest : String → Option (List (String × String))
  execPath : String
  defaultRuntime : String
  classpathFs : String → CpEntry

/-- What the manifest of the main jar contributes inside `process_config`:
options pushed (Add-Exports pairs, then Add-Opens pairs, then
Enable-Native-Access), classpath entries from Class-Path, and Main-Class. -/
structure ManifestContribution where
  options : List String
  classpath : List String
  mainClass : Option String
deriving Repr

/-- The manifest-processing block of `process_config` (the `Ok(manifest)`
arm), reading the main section. -/
def manifestContribution (mainSec : List (String × String)) : ManifestContribution :=
  let mc := manifestGet mainSec "Main-Class"
  let cpAdd :=
    match manifestGet mainSec "Class-Path" with
    | some cp => splitSpace cp
    | none => []
  let exOpts :=
    match manifestGet mainSec "Add-Exports" with
    | some ex => (splitSpace ex).flatMap (fun s => ["--add-exports", s ++ "=ALL-UNNAMED"])
    | none => []
  let opOpts :=
    match manifestGet mainSec "Add-Opens" with
    | some ex => (splitSpace ex).flatMap (fun s => ["--add-opens", s ++ "=ALL-UNNAMED"])
    | none => []
  let naOpts :=
    match manifestGet mainSec "Enable-Native-Access" with
    | some ex => if ex = "ALL-UNNAMED" then ["--enable-native-access=" ++ ex] else []
    | none => []
  ⟨exOpts ++ opOpts ++ naOpts, cpAdd, mc⟩

/-- Accumulated effect of the `app.mainjar` block: manifest-derived options,
classpath and main class, plus the lookup path and the jar itself appended to
the classpath.  `none` models the panics of `main_jar.last().unwrap()` and
the `main_jar[0]` index on an empty value list. -/
structure MainJarStage where
  options : List String
  manifestClasspath : List String
  manifestMain : Option String
  lookupPath : List String
  jarClasspath : List String
deriving Repr

/-- The `app.mainjar` handling of `process_config`. -/
def mainJarStage (env : ProcessEnv) (appSec : List (String × List String)) :
    Option MainJarStage :=
  match sectionGet appSec "app.mainjar" with
  | none => some ⟨[], [], none, [], []⟩
  | some mainJar =>
    match mainJar.getLast?, mainJar.head? with
    | some lastJar, some firstJar =>
      let m :=
        match env.readManifest lastJar with
        | none => (⟨[], [], none⟩ : ManifestContribution)
        | some mainSec => manifestContribution mainSec
      some ⟨m.options, m.classpath, m.mainClass, [firstJar], [firstJar]⟩
    | _, _ => none

/-- Accumulated effect of the whole `Application` section. -/
structure AppStage where
  options : List String
  classpath : List String
  runtime : Option String
  mainClass : Option String
  lookupPath : List String
deriving Repr

/-- The `Application`-section block of `process_config`: classpath from
`app.classpath`, then the main-jar block, the `app.mainclass` override, the
module options, and the runtime path (defaulting when `app.runtime` is
absent).  `none` models a panic at one of the `unwrap`s on empty value
lists. -/
def appStage (env : ProcessEnv) (appSec : List (String × List String)) :
    Option AppStage :=
  match mainJarStage env appSec with
  | none => none
  | some mj =>
    let classpath1 :=
      (sectionGet appSec "app.classpath").getD [] ++ mj.manifestClasspath ++ mj.jarClasspath
    let mainClassRes : Option (Option String) :=
      match sectionGet appSec "app.mainclass" with
      | none => some mj.manifestMain
      | some mcs =>
        match mcs.getLast? with
        | none => none
        | some mc => some (some mc)
    match mainClassRes with
    | none => none
    | some mainClass =>
      let mmOpts :=
        match sectionGet appSec "app.mainmodule" with
        | none => []
        | some mm => "-m" :: mm
      let mpOpts :=
        match sectionGet appSec "app.modulepath" with
        | none => []
        | some mp => ["--module-path", joinSep mp]
      let runtimeRes : Option (Option String) :=
        match sectionGet appSec "app.runtime" with
        | none => some (some env.defaultRuntime)
        | some rt =>
          match rt.getLast? with
          | none => none
          | some r => some (some r)
      match runtimeRes with
      | none => none
      | some runtime =>
        some ⟨mj.options ++ mmOpts ++ mpOpts, classpath1, runtime, mainClass, mj.lookupPath⟩

/-- Embeds `process_config`.  `none` models a panic; the decisive one for a
config lacking both `app.mainclass` and a manifest `Main-Class` is
`main_class.clone().unwrap()`, which in the Rust code is evaluated before any
other field of the returned struct. -/
def process_config (env : ProcessEnv) (cfg : List (String × List (String × List String))) :
    Option LaunchConfig :=
  let options0 :=
    match configGet cfg "JavaOptions" with
    | some sec => (sectionGet sec "java-options").getD []
    | none => []
  let st : Option AppStage :=
    match configGet cfg "Application" with
    | none => some ⟨[], [], none, none, []⟩
    | some appSec => appStage env appSec
  match st with
  | none => none
  | some st =>
    let programOpts :=
      match configGet cfg "ArgOptions" with
      | some sec => (sectionGet sec "arguments").getD []
      | none => []
    let options1 := options0 ++ st.options ++ ["-Djpackage.app-path=" ++ env.execPath]
    let options2 :=
      if 0 < st.classpath.length then
        options1 ++ ["-Djava.class.path=" ++ joinSep st.classpath]
      else options1
    let lookupPath := if st.lookupPath.isEmpty then st.classpath else st.lookupPath
    match st.mainClass with
    | none => none
    | some mc =>
      some
        { main_class := mc
          runtime := st.runtime
          min_java := get_java_version_of_main (some mc.data) (lookupPath.map env.classpathFs)
          java_opts := options2
          classpath := st.classpath
          program_opts := programOpts }

/-! ## Launch-argument builder (`java_launcher.rs`, `make_jvm_args`).  The
builder fixes the JNI version, sets ignore-unrecognized, and forwards the
configured options verbatim; it contains no memory or heap handling. -/

/-- The `InitArgs` value produced by `make_jvm_args`. -/
structure InitArgsModel where
  jniVersion : Nat
  ignoreUnrecognized : Bool
  options : List String
deriving DecidableEq, Repr

/-- Embeds `make_jvm_args` over the `jvm_opts` of the launch options. -/
def make_jvm_args (jvmOpts : List String) : InitArgsModel :=
  ⟨2, true, jvmOpts⟩

/-- Whether an options list carries an explicit maximum-heap (`-Xmx`) flag. -/
def hasXmxFlag (opts : List String) : Bool :=
  opts.any (fun o => isPre (chars "-Xmx") o.data)

/-! ## Candidate resolution and orchestration (`java_launcher.rs`).
`get_jvm_paths` there returns `Option<Vec<PathBuf>>`; each probe (primary
directory search, `java_locator`, fallback locations) is modelled by the path
it finds, if any, together with the oracle verdict for that path.  Candidate
paths are identified by `Nat` ids. -/

/-- One filesystem probe of `get_jvm_paths` (`java_launcher.rs`): the path
found by `valid_path(find_file ...)` (or by `java_locator`) and the
`compatible_java_version` verdict at it. -/
structure JlProbe where
  path : Nat
  oracle : Option Bool
deriving DecidableEq, Repr

/-- Probe results for one run of `get_jvm_paths` (`java_launcher.rs`).
`primary` covers both the current-directory and the explicit-path branch of
the `match`, which are line-for-line identical there; `none` models a failed
`current_dir`, a missing file, or a vanished path. -/
structure JlResolveEnv where
  primary : Option JlProbe
  systemJava : Option JlProbe
  fallback : List (Option JlProbe)
deriving Repr

/-- Config fields consumed by `get_jvm_paths` (`java_launcher.rs`). -/
structure JlConfig where
  allows_system_java : Bool
  allows_java_location_lookup : Bool
  min_java : Option Nat
deriving DecidableEq, Repr

/-- A probe contributes a candidate exactly when the oracle said
`Some(true)` (`if let Some(compatible) = ... { if compatible ... }`). -/
def probeHit : Option JlProbe → Option Nat
  | some pr => if pr.oracle = some true then some pr.path else none
  | none => none

/-- The fallback-location loop: `done` starts false on entry, and the loop
breaks right after the first successful push. -/
def fallbackFirstHit : List (Option JlProbe) → List Nat
  | [] => []
  | p :: rest =>
    match probeHit p with
    | some path => [path]
    | none => fallbackFirstHit rest

/-- The candidate list accumulated by `get_jvm_paths` (`java_launcher.rs`):
primary probe, then (guarded by the flag and `!done`) the system-Java probe,
then (same guards) the fallback loop. -/
def jlCandidates (cfg : JlConfig) (env : JlResolveEnv) : List Nat :=
  let s1 : List Nat :=
    match probeHit env.primary with
    | some p => [p]
    | none => []
  let s2 : List Nat :=
    if cfg.allows_system_java && s1.isEmpty then
      match probeHit env.systemJava with
      | some p => [p]
      | none => []
    else []
  let s3 : List Nat :=
    if cfg.allows_java_location_lookup && s1.isEmpty && s2.isEmpty then
      fallbackFirstHit env.fallback
    else []
  s1 ++ s2 ++ s3

/-- Embeds `get_jvm_paths` from `java_launcher.rs`: every control path of the
Rust function ends in `Some(jvm_paths)`. -/
def get_jvm_paths_jl (cfg : JlConfig) (env : JlResolveEnv) : Option (List Nat) :=
  some (jlCandidates cfg env)

/-- The user-facing diagnostics `create_and_run_jvm` can emit through
`message`, one constructor per distinct text. -/
inductive Msg where
  | invalidConfig
  | findFail
  | argsFail
  | invokeFail
  | attachFail
  | missingOrOlder
  | launchFail
deriving DecidableEq, Repr

/-- Outcomes of the external JNI calls during one run, plus the
`validate()` result of the launcher config (`LauncherConfig` is declared
outside the sources at hand; per the spec, validation checks that entry
point and classpath are present). -/
structure RunEnv where
  validateOk : Bool
  resolve : JlResolveEnv
  argsOk : Bool
  createOk : Bool
  attachOk : Bool
  invokeOk : Bool
  getVmOk : Bool
deriving Repr

/-- Observable trace of one `create_and_run_jvm` run: the diagnostics shown,
how many times `close_jvm` (`DestroyJavaVM`) ran, how many times
`JavaVM::with_libjvm` was attempted, and whether a creation succeeded. -/
structure RunTrace where
  messages : List Msg
  closeCalls : Nat
  createCalls : Nat
  createSucceeded : Bool
deriving DecidableEq, Repr

/-- Embeds `try_launch_jvm`: result (`some ()` iff a VM now exists), the
diagnostics it emitted, and the number of creation attempts. -/
def try_launch_jvm (jvmPath : Option Nat) (env : RunEnv) :
    Option Unit × List Msg × Nat :=
  match jvmPath with
  | none => (none, [], 0)
  | some _ =>
    if env.argsOk then
      if env.createOk then (some (), [], 1) else (none, [], 1)
    else (none, [Msg.argsFail], 0)

/-- Embeds `create_and_run_jvm` (`java_launcher.rs`).  Mirrors the control
flow: config validation; candidate resolution (taking the head of the list
and recording `had_jvm_path`); `try_launch_jvm`; attach; invoke (an
invocation error returns early, before any `close_jvm`); on success one
`close_jvm` through `env.get_java_vm()` when that call succeeds, then the
unconditional `close_jvm(jvm)` after the match; attach failure reaches only
the unconditional close. -/
def create_and_run_jvm (cfg : JlConfig) (env : RunEnv) : RunTrace :=
  if !env.validateOk then ⟨[Msg.invalidConfig], 0, 0, false⟩
  else
    match get_jvm_paths_jl cfg env.resolve with
    | none => ⟨[Msg.findFail], 0, 0, false⟩
    | some paths =>
      let jvmPath := paths.head?
      let had := !paths.isEmpty
      match try_launch_jvm jvmPath env with
      | (some _, msgs, cc) =>
        if env.attachOk then
          if env.invokeOk then
            let innerClose := if env.getVmOk then 1 else 0
            ⟨msgs, innerClose + 1, cc, true⟩
          else
            ⟨msgs ++ [Msg.invokeFail], 0, cc, true⟩
        else
          ⟨msgs ++ [Msg.attachFail], 1, cc, true⟩
      | (none, msgs, cc) =>
        if !had then ⟨msgs ++ [Msg.missingOrOlder], 0, cc, false⟩
        else ⟨msgs ++ [Msg.launchFail], 0, cc, false⟩

/-! ## Deferred-strategy resolver (`file_handler.rs`, `get_jvm_paths`).
This newer variant returns a vector of deferred closures; the tags below
name them in push order, and `runStrategy` embeds each closure's body. -/

/-- Strategy tags for the closures pushed by `get_jvm_paths`
(`file_handler.rs`), in source order: the primary closure (explicit path
when `config.runtime` is set, else current working directory), the two
JAVA_HOME closures (directory search, then the variable's path itself), and
one closure per common install location. -/
inductive StrategyTag where
  | explicitPath
  | cwd
  | envFind
  | envDirect
  | commonLoc (i : Nat)
deriving DecidableEq, Repr

/-- The common-location loop: pushes a closure per location, and breaks as
soon as the vector holds more than 3 entries. -/
def commonLoop (len : Nat) (i : Nat) : List String → List StrategyTag
  | [] => []
  | _ :: rest =>
    if 3 < len + 1 then [StrategyTag.commonLoc i]
    else StrategyTag.commonLoc i :: commonLoop (len + 1) (i + 1) rest

/-- Embeds the push sequence of `get_jvm_paths` (`file_handler.rs`): one
primary closure, then each later push guarded by `jvm_paths.len() < 4`. -/
def get_jvm_paths_fh (runtimeSpecified : Bool) (locs : List String) : List StrategyTag :=
  let l1 := [if runtimeSpecified then StrategyTag.explicitPath else StrategyTag.cwd]
  let l2 := if l1.length < 4 then l1 ++ [StrategyTag.envFind] else l1
  let l3 := if l2.length < 4 then l2 ++ [StrategyTag.envDirect] else l2
  if l3.length < 4 then l3 ++ commonLoop l3.length 0 locs else l3

/-- The linux value of `JVM_LOC_QUERIES` in `file_handler.rs`. -/
def JVM_LOC_QUERIES : List String :=
  ["$USER$/.gradle/jdks", "/usr/lib/jvm", "/usr/java", "/usr/local/java"]

/-- One strategy closure's filesystem interaction (`file_handler.rs`): the
path found by `valid_path(find_file ...)`, the oracle verdict at the probed
path, and the `dunce::canonicalize` outcome. -/
structure FhProbe where
  found : Option Nat
  oracle : Option Bool
  canonOk : Bool
  canonPath : Nat
deriving DecidableEq, Repr

/-- Environment for running the deferred closures: `current_dir` success,
the JAVA_HOME value (`none` when unset), and per-strategy probe data. -/
structure FhEnv where
  curDirOk : Bool
  javaHome : Option String
  probeOf : StrategyTag → FhProbe

/-- The shared accept pattern of the cwd, JAVA_HOME-search and
common-location closures: found path, oracle `Some(true)`, then the
canonicalized path; anything else yields `none`. -/
def fhHit (pr : FhProbe) : Option Nat :=
  match pr.found with
  | some _ =>
    match pr.oracle with
    | some true => if pr.canonOk then some pr.canonPath else none
    | _ => none
  | none => none

/-- Embeds the body of each deferred closure pushed by `get_jvm_paths`
(`file_handler.rs`).  Only the explicit-path closure carries the
`else if min_java_ver == 0` arm, which accepts the found (uncanonicalized)
path when the oracle is `Unknown` and no minimum version is set. -/
def runStrategy (minJava : Nat) (tag : StrategyTag) (env : FhEnv) : Option Nat :=
  match tag with
  | .explicitPath =>
    let pr := env.probeOf .explicitPath
    match pr.found with
    | some p =>
      match pr.oracle with
      | some true => if pr.canonOk then some pr.canonPath else none
      | some false => none
      | none => if minJava = 0 then some p else none
    | none => none
  | .cwd => if env.curDirOk then fhHit (env.probeOf .cwd) else none
  | .envFind =>
    match env.javaHome with
    | some s => if s ≠ "" then fhHit (env.probeOf .envFind) else none
    | none => none
  | .envDirect =>
    match env.javaHome with
    | some s =>
      if s ≠ "" then
        let pr := env.probeOf .envDirect
        match pr.oracle with
        | some true => if pr.canonOk then some pr.canonPath else none
        | _ => none
      else none
    | none => none
  | .commonLoc i => fhHit (env.probeOf (.commonLoc i))

/-! ## Concrete fixtures used by the theorems below. -/

/-- A process environment with no readable manifests and an empty filesystem. -/
def procEnv0 : ProcessEnv := ⟨fun _ => none, "exec", "rt", fun _ => CpEntry.missing⟩

/-- A raw config carrying a main class and the (ignored) memory hint. -/
def memCfg : List (String × List (String × List String)) :=
  [("Application", [("app.mainclass", ["Main"]), ("app.memory", ["0.5"])])]

/-- A classpath entry whose class file has a wrong magic number, so version
extraction fails. -/
def badEntry : CpEntry := .dir (some (some [0, 0, 0, 0, 0, 0, 0, 0]))

/-- A classpath entry whose class file is a valid major-61 class. -/
def goodEntry : CpEntry := .dir (some (some [202, 254, 186, 190, 0, 0, 0, 61]))

/-- Launcher config with both lookup flags off and no version requirement. -/
def jlCfgNone : JlConfig := ⟨false, false, none⟩

/-- Launcher config that allows the system-Java lookup. -/
def jlCfgSys : JlConfig := ⟨true, false, none⟩

/-- Run environment: one compatible candidate; create, attach succeed;
invocation fails. -/
def runInvokeFail : RunEnv := ⟨true, ⟨some ⟨0, some true⟩, none, []⟩, true, true, true, false, true⟩

/-- Run environment: one compatible candidate; everything succeeds. -/
def runSuccess : RunEnv := ⟨true, ⟨some ⟨0, some true⟩, none, []⟩, true, true, true, true, true⟩

/-- Run environment: one compatible candidate; create succeeds; attach fails. -/
def runAttachFail : RunEnv := ⟨true, ⟨some ⟨0, some true⟩, none, []⟩, true, true, false, true, true⟩

/-- Run environment: a compatible primary candidate whose creation fails,
while a second compatible installation (system Java) exists on the host. -/
def runCreateFail : RunEnv := ⟨true, ⟨some ⟨0, some true⟩, some ⟨1, some true⟩, []⟩, true, false, true, true, true⟩

/-- Run environment in which every probe comes up empty. -/
def runNoCandidates : RunEnv := ⟨true, ⟨none, none, []⟩, true, true, true, true, true⟩

/-- Strategy environment where every probe finds path 7 but the oracle is
Unknown (no release metadata). -/
def fhEnvUnknown : FhEnv := ⟨true, some "/jdk", fun _ => ⟨some 7, none, true, 9⟩⟩

/-- Strategy environment where every probe finds path 7, the oracle reports
compatible, and canonicalization yields path 9. -/
def fhEnvGood : FhEnv := ⟨true, some "/jdk", fun _ => ⟨some 7, some true, true, 9⟩⟩

/-! ## Claim theorems -/

/-- C1: the Version Oracle never panics on unparsable metadata and returns
Unknown when no parsable leading integer exists.  The `java_launcher.rs`
implementation violates this: on a release file whose `JAVA_VERSION` value
has no parsable leading integer it aborts at `parse::<i32>().unwrap()`,
contradicting its own doc comment (`None` "if ... another error occurs").
The `file_handler.rs` implementation conforms on the same input and decides
`w >= v` correctly on parsable metadata. -/
theorem c1_oracle_panics_on_unparsable_metadata :
    compatible_java_version_jl (some (chars "abc")) 17 = JlVerdict.panics ∧
    compatible_java_version_fh [chars "JAVA_VERSION=abc"] 17 = none ∧
    compatible_java_version_fh [chars "JAVA_VERSION=\"17.0.1\""] 17 = some true ∧
    compatible_java_version_fh [chars "JAVA_VERSION=\"17.0.1\""] 18 = some false := by
  decide

/-- C2: for every input of at least 8 bytes, `read_class_version_to_java`
returns `None` when the first four big-endian bytes are not `0xCAFEBABE`;
when they are, it returns `Some(major - 44)` for a major-version field of at
least 45 and `None` for 44 or less. -/
theorem c2_class_header_contract (bytes : List Nat) (h : 8 ≤ bytes.length) :
    (classMagic bytes ≠ 0xCAFEBABE → read_class_version_to_java bytes = none) ∧
    (classMagic bytes = 0xCAFEBABE →
      (45 ≤ classMajor bytes →
        read_class_version_to_java bytes = some (classMajor bytes - 44)) ∧
      (classMajor bytes ≤ 44 → read_class_version_to_java bytes = none)) := by
  have hlen : ¬ bytes.length < 8 := by omega
  refine ⟨fun hm => ?_, fun hm => ⟨fun h45 => ?_, fun h44 => ?_⟩⟩
  · simp [read_class_version_to_java, hlen, hm]
  · simp [read_class_version_to_java, hlen, hm, h45]
  · have : ¬ 45 ≤ classMajor bytes := by omega
    simp [read_class_version_to_java, hlen, hm, this]

/-- C2 witness: a concrete 8-byte class header with magic `0xCAFEBABE` and
major version 61 maps to Java 17. -/
theorem c2_class_header_contract_witness :
    8 ≤ ([202, 254, 186, 190, 0, 0, 0, 61] : List Nat).length ∧
    read_class_version_to_java [202, 254, 186, 190, 0, 0, 0, 61] = some 17 :=
  ⟨by decide,
    ((c2_class_header_contract [202, 254, 186, 190, 0, 0, 0, 61] (by decide)).2
      (by decide)).1 (by decide)⟩

/-- C3: the claim says a configuration missing the entry point terminates
with a validation diagnostic without crashing.  The code instead panics:
`process_config` evaluates `main_class.clone().unwrap()` before
`create_and_run_jvm`'s validation can run, so a config with no
`app.mainclass` and no manifest `Main-Class` aborts the process (first two
conjuncts); with an entry point present the same pipeline succeeds (third
conjunct). -/
theorem c3_process_config_panics_without_entry_point :
    process_config procEnv0 [("Application", [("app.classpath", ["app.jar"])])] = none ∧
    process_config procEnv0 [] = none ∧
    (process_config procEnv0 [("Application", [("app.mainclass", ["Main"])])]).isSome = true := by
  decide

/-- C6 counterexample: the first classpath entry yields the artifact but its
version extraction fails (bad magic); the claim says the scan returns `None`
there, yet the code continues and returns the version from the second
entry. -/
theorem c6_scan_counterexample :
    scanEntry badEntry = some [0, 0, 0, 0, 0, 0, 0, 0] ∧
    read_class_version_to_java [0, 0, 0, 0, 0, 0, 0, 0] = none ∧
    get_java_version_of_main (some (chars "Main")) [badEntry] = none ∧
    get_java_version_of_main (some (chars "Main")) [badEntry, goodEntry] = some 17 := by
  decide

/-- C6 amended: `get_java_version_of_main` scans classpath entries in order
and returns the first successfully extracted version; an entry whose
artifact is found but whose extraction fails does not stop the scan, and the
result is `None` only when no entry yields a version (plus: no main class
means no scan). -/
theorem c6_scan_recurrence_amended (m : List Char) (e : CpEntry)
    (rest cp : List CpEntry) :
    get_java_version_of_main (some m) [] = none ∧
    get_java_version_of_main none cp = none ∧
    get_java_version_of_main (some m) (e :: rest) =
      (((scanEntry e).bind read_class_version_to_java).orElse
        (fun _ => get_java_version_of_main (some m) rest)) := by
  refine ⟨rfl, rfl, ?_⟩
  show scanClasspath (e :: rest) = _
  unfold scanClasspath
  cases hs : scanEntry e with
  | none => simp [Option.orElse, get_java_version_of_main]
  | some b =>
    cases hb : read_class_version_to_java b <;>
      simp [Option.orElse, Option.bind, hb, get_java_version_of_main]

/-- C9 counterexample: a configuration carrying the memory-fraction hint
(`app.memory`) and no explicit `-Xmx` flag; the claim says the argument
builder appends a maximum-heap flag, but neither the processed options nor
the built `InitArgs` contain any `-Xmx` option. -/
theorem c9_no_heap_flag_counterexample :
    (configGet memCfg "Application").bind (fun s => sectionGet s "app.memory") =
      some ["0.5"] ∧
    (process_config procEnv0 memCfg).map (fun lc => hasXmxFlag lc.java_opts) =
      some false ∧
    (process_config procEnv0 memCfg).map
      (fun lc => hasXmxFlag (make_jvm_args lc.java_opts).options) = some false := by
  decide

/-- C9 amended: `make_jvm_args` fixes JNI version 2, ignores unrecognized
options, and forwards the configured raw options verbatim; it never appends
a maximum-heap flag (the `app.memory` hint is read by no code path). -/
theorem c9_options_verbatim_amended (opts : List String) :
    (make_jvm_args opts).options = opts ∧
    (make_jvm_args opts).jniVersion = 2 ∧
    (make_jvm_args opts).ignoreUnrecognized = true :=
  ⟨rfl, rfl, rfl⟩

/-- A closure accepts through the shared hit pattern only when the oracle
said `Some(true)`. -/
theorem fhHit_oracle (pr : FhProbe) (p : Nat) (h : fhHit pr = some p) :
    pr.oracle = some true := by
  cases hf : pr.found with
  | none => simp [fhHit, hf] at h
  | some q =>
    cases ho : pr.oracle with
    | none => simp [fhHit, hf, ho] at h
    | some b =>
      cases b
      · simp [fhHit, hf, ho] at h
      · rfl

/-- The shared hit pattern rejects a candidate whose oracle verdict is
Unknown. -/
theorem fhHit_unknown (pr : FhProbe) (h : pr.oracle = none) : fhHit pr = none := by
  cases hf : pr.found <;> simp [fhHit, hf, h]

/-- C4 counterexample: the claim says `close_jvm` runs exactly once on every
run whose creation succeeded.  On the invocation-failure path the early
`return` skips both `close_jvm` calls (zero closes after a successful
create), and on the fully successful path `close_jvm` runs twice (once on
the re-acquired handle, once on the original). -/
theorem c4_close_count_counterexample :
    (create_and_run_jvm jlCfgNone runInvokeFail).createSucceeded = true ∧
    (create_and_run_jvm jlCfgNone runInvokeFail).closeCalls = 0 ∧
    (create_and_run_jvm jlCfgNone runSuccess).createSucceeded = true ∧
    (create_and_run_jvm jlCfgNone runSuccess).closeCalls = 2 := by
  decide

/-- C4 amended: after a successful creation, `close_jvm` runs exactly once on
the attach-failure path, zero times on the invocation-failure path, and on
the success path twice (or once when re-acquiring the handle via
`get_java_vm` fails). -/
theorem c4_close_count_amended (cfg : JlConfig) (env : RunEnv)
    (h : (create_and_run_jvm cfg env).createSucceeded = true) :
    (create_and_run_jvm cfg env).closeCalls =
      (if env.attachOk then
        (if env.invokeOk then (if env.getVmOk then 2 else 1) else 0)
      else 1) := by
  obtain ⟨v, res, aok, cok, atok, inok, gok⟩ := env
  cases v <;> cases aok <;> cases cok <;> cases atok <;> cases inok <;> cases gok <;>
    cases hp : jlCandidates cfg res <;>
      simp_all [create_and_run_jvm, get_jvm_paths_jl, try_launch_jvm]

/-- C4 amended witness: on a concrete attach-failure run after a successful
create, `close_jvm` runs exactly once. -/
theorem c4_close_count_amended_witness :
    (create_and_run_jvm jlCfgNone runAttachFail).closeCalls = 1 := by
  have h := c4_close_count_amended jlCfgNone runAttachFail (by decide)
  simpa using h

/-- C5 counterexample: the claim says a failed creation advances to the next
candidate and only exhaustion yields the no-candidate outcome.  In an
environment where the primary candidate's creation fails while a second
compatible installation exists (the system-Java probe), the resolver hands
over a single candidate, exactly one creation is attempted, and the run ends
immediately with the launch-failure diagnostic, not the no-candidate one. -/
theorem c5_no_retry_counterexample :
    get_jvm_paths_jl jlCfgSys runCreateFail.resolve = some [0] ∧
    probeHit runCreateFail.resolve.systemJava = some 1 ∧
    (create_and_run_jvm jlCfgSys runCreateFail).createCalls = 1 ∧
    (create_and_run_jvm jlCfgSys runCreateFail).messages = [Msg.launchFail] := by
  decide

/-- C5 amended: every run attempts at most one creation, and a run whose
single creation attempt fails terminates at once with the launch-failure
diagnostic — no further candidate is tried. -/
theorem c5_single_attempt_amended (cfg : JlConfig) (env : RunEnv) :
    (create_and_run_jvm cfg env).createCalls ≤ 1 ∧
    ((create_and_run_jvm cfg env).createCalls = 1 →
      (create_and_run_jvm cfg env).createSucceeded = false →
      (create_and_run_jvm cfg env).messages = [Msg.launchFail]) := by
  obtain ⟨v, res, aok, cok, atok, inok, gok⟩ := env
  cases v <;> cases aok <;> cases cok <;> cases atok <;> cases inok <;> cases gok <;>
    cases hp : jlCandidates cfg res <;>
      simp_all [create_and_run_jvm, get_jvm_paths_jl, try_launch_jvm]

/-- C5 amended witness: the concrete creation-failure run ends with the
launch-failure diagnostic. -/
theorem c5_single_attempt_amended_witness :
    (create_and_run_jvm jlCfgSys runCreateFail).messages = [Msg.launchFail] :=
  (c5_single_attempt_amended jlCfgSys runCreateFail).2 (by decide) (by decide)

/-- C7: the deferred strategies are returned in strict priority order —
explicit path (or cwd when no path is configured), then the two JAVA_HOME
lookups, then common locations — capped at 4 with remaining common-location
entries skipped; and no strategy yields a candidate whose oracle verdict was
`Some(false)` (the version gate runs before a candidate is handed to
creation). -/
theorem c7_strategy_order_cap_gate (rs : Bool) (locs : List String) (minJava : Nat)
    (tag : StrategyTag) (env : FhEnv) :
    get_jvm_paths_fh rs locs =
      [if rs then StrategyTag.explicitPath else StrategyTag.cwd,
        StrategyTag.envFind, StrategyTag.envDirect] ++
        (if locs.isEmpty then [] else [StrategyTag.commonLoc 0]) ∧
    (get_jvm_paths_fh rs locs).length ≤ 4 ∧
    (∀ p, runStrategy minJava tag env = some p → (env.probeOf tag).oracle ≠ some false) := by
  refine ⟨?_, ?_, ?_⟩
  · cases locs <;> simp [get_jvm_paths_fh, commonLoop]
  · cases locs <;> cases rs <;> simp [get_jvm_paths_fh, commonLoop]
  · intro p hp
    cases tag with
    | explicitPath =>
      simp only [runStrategy] at hp
      cases hf : (env.probeOf .explicitPath).found with
      | none => simp [hf] at hp
      | some q =>
        cases ho : (env.probeOf .explicitPath).oracle with
        | none => simp [ho]
        | some b =>
          cases b
          · simp [hf, ho] at hp
          · simp [ho]
    | cwd =>
      simp only [runStrategy] at hp
      by_cases hc : env.curDirOk
      · rw [fhHit_oracle _ p (by simpa [hc] using hp)]; simp
      · simp [hc] at hp
    | envFind =>
      simp only [runStrategy] at hp
      cases hj : env.javaHome with
      | none => simp [hj] at hp
      | some s =>
        rw [hj] at hp
        by_cases hs : s = ""
        · simp [hs] at hp
        · rw [fhHit_oracle _ p (by simpa [hs] using hp)]; simp
    | envDirect =>
      simp only [runStrategy] at hp
      cases hj : env.javaHome with
      | none => simp [hj] at hp
      | some s =>
        rw [hj] at hp
        by_cases hs : s = ""
        · simp [hs] at hp
        · cases ho : (env.probeOf .envDirect).oracle with
          | none => simp [ho]
          | some b =>
            cases b
            · simp [hs, ho] at hp
            · simp [ho]
    | commonLoc i =>
      simp only [runStrategy] at hp
      rw [fhHit_oracle _ p hp]; simp

/-- C7 witness: on a concrete environment the cwd strategy yields the
canonicalized candidate, whose oracle verdict was not `Some(false)`. -/
theorem c7_strategy_order_cap_gate_witness :
    runStrategy 0 .cwd fhEnvGood = some 9 ∧
    (fhEnvGood.probeOf .cwd).oracle ≠ some false :=
  ⟨by decide,
    (c7_strategy_order_cap_gate true JVM_LOC_QUERIES 0 .cwd fhEnvGood).2.2 9 (by decide)⟩

/-- C8 counterexample: the claim says every strategy accepts a candidate
with Unknown metadata when no version requirement is set.  With no
requirement (min 0) and an Unknown oracle verdict, the cwd, JAVA_HOME and
common-location strategies all discard the found candidate; only the
explicit-path strategy accepts it. -/
theorem c8_unknown_gate_counterexample :
    runStrategy 0 .cwd fhEnvUnknown = none ∧
    runStrategy 0 .envFind fhEnvUnknown = none ∧
    runStrategy 0 .envDirect fhEnvUnknown = none ∧
    runStrategy 0 (.commonLoc 0) fhEnvUnknown = none ∧
    runStrategy 0 .explicitPath fhEnvUnknown = some 7 := by
  decide

/-- C8 amended: only the explicit-path strategy accepts a candidate whose
release metadata is missing (oracle Unknown) when no version requirement is
set; the cwd, JAVA_HOME and common-location strategies discard such a
candidate for every requirement. -/
theorem c8_unknown_gate_amended (env : FhEnv) (minJava : Nat) (p : Nat)
    (h1 : (env.probeOf .explicitPath).found = some p)
    (h2 : (env.probeOf .explicitPath).oracle = none) :
    runStrategy 0 .explicitPath env = some p ∧
    ((env.probeOf .cwd).oracle = none → runStrategy minJava .cwd env = none) ∧
    ((env.probeOf .envFind).oracle = none → runStrategy minJava .envFind env = none) ∧
    ((env.probeOf .envDirect).oracle = none → runStrategy minJava .envDirect env = none) ∧
    (∀ i, (env.probeOf (.commonLoc i)).oracle = none →
      runStrategy minJava (.commonLoc i) env = none) := by
  refine ⟨?_, fun h => ?_, fun h => ?_, fun h => ?_, fun i h => ?_⟩
  · simp [runStrategy, h1, h2]
  · simp [runStrategy, fhHit_unknown _ h]
  · cases hj : env.javaHome <;> simp [runStrategy, hj, fhHit_unknown _ h]
  · cases hj : env.javaHome <;> simp [runStrategy, hj, h]
  · simp [runStrategy, fhHit_unknown _ h]

/-- C8 amended witness: at the concrete Unknown-metadata environment the
explicit-path strategy accepts the found path and the cwd strategy
discards it. -/
theorem c8_unknown_gate_amended_witness :
    runStrategy 0 .explicitPath fhEnvUnknown = some 7 ∧
    runStrategy 5 .cwd fhEnvUnknown = none :=
  ⟨(c8_unknown_gate_amended fhEnvUnknown 5 7 (by decide) (by decide)).1,
    (c8_unknown_gate_amended fhEnvUnknown 5 7 (by decide) (by decide)).2.1 (by decide)⟩

/-- C10: `get_jvm_paths` in `java_launcher.rs` returns `Some` on every
input, so the "Failed to find a valid Java installation" diagnostic of
`create_and_run_jvm` is unreachable, and exhaustion of candidates is
reported through the `had_jvm_path = false` branch ("A missing or older
Java installation was found"). -/
theorem c10_resolver_total (cfg : JlConfig) (renv : JlResolveEnv) (env : RunEnv) :
    (get_jvm_paths_jl cfg renv).isSome = true ∧
    Msg.findFail ∉ (create_and_run_jvm cfg env).messages ∧
    (env.validateOk = true → jlCandidates cfg env.resolve = [] →
      (create_and_run_jvm cfg env).messages = [Msg.missingOrOlder]) := by
  refine ⟨rfl, ?_, ?_⟩
  · obtain ⟨v, res, aok, cok, atok, inok, gok⟩ := env
    cases v <;> cases aok <;> cases cok <;> cases atok <;> cases inok <;> cases gok <;>
      cases hp : jlCandidates cfg res <;>
        simp_all [create_and_run_jvm, get_jvm_paths_jl, try_launch_jvm]
  · intro hv he
    obtain ⟨v, res, aok, cok, atok, inok, gok⟩ := env
    simp_all [create_and_run_jvm, get_jvm_paths_jl, try_launch_jvm]

/-- C10 witness: on a run where every probe misses, the resolver still
returns `Some` and the run reports the missing-or-older diagnostic. -/
theorem c10_resolver_total_witness :
    (get_jvm_paths_jl jlCfgNone runNoCandidates.resolve).isSome = true ∧
    (create_and_run_jvm jlCfgNone runNoCandidates).messages = [Msg.missingOrOlder] :=
  ⟨(c10_resolver_total jlCfgNone runNoCandidates.resolve runNoCandidates).1,
    (c10_resolver_total jlCfgNone runNoCandidates.resolve runNoCandidates).2.2
      (by decide) (by decide)⟩

end Why
